import Mathlib

/-!
Verification of the news-summarizer core.

The per-article pipeline (`summarize_article`), the sequential batch loop
(`process_articles`) and the bounded-concurrency batch mode
(`process_articles_async`) are embedded from `src/summarizer.py`.  The two
LLM backends are modelled as deterministic oracles from prompt to
`Except String String` (an `Except.error` models a raised exception), and
the thread-based concurrency of the async mode is collapsed to its
observable behaviour: `asyncio.gather` collects one result per task in task
creation order (that is, input order) with `return_exceptions=True`, after
which exceptions are filtered out.

The cost tracker, token estimator and rate limiter live in the module
`my_llm_providers`, which is not part of the sources; those components are
modelled from the specification, as marked on each definition.
-/

set_option maxRecDepth 4096

namespace Week2d4

/-- An article record as consumed by the pipeline: the dictionary fields
used by `summarize_article` in `src/summarizer.py`. -/
structure Article where
  title : String
  description : String
  content : String
  url : String
  source : String
  published_at : String
  deriving DecidableEq

/-- The result dictionary built at the end of `summarize_article`
(`src/summarizer.py` lines 51-58). -/
structure SummaryResult where
  title : String
  source : String
  url : String
  summary : String
  sentiment : String
  published_at : String
  deriving DecidableEq

/-- The two backend services of `LLMProviders`, as deterministic oracles
from prompt to response; `Except.error` models a raised exception. -/
structure LLMProviders where
  ask_openai : String → Except String String
  ask_cohere : String → Except String String

/-- The `article_text` f-string of `summarize_article`: title, description
and the content field truncated to its first 500 characters (the Python
slice is by code points, hence the truncation on the character list). -/
def article_text (a : Article) : String :=
  "Title: " ++ a.title ++ "\nDescription: " ++ a.description ++
    "\nContent: " ++ String.mk (a.content.data.take 500)

/-- The Stage-A summarization prompt (`summary_prompt` in the source). -/
def summary_prompt (a : Article) : String :=
  "Summarize this news article in 2-3 sentences:\n\n" ++ article_text a

/-- The Stage-B sentiment prompt (`sentiment_prompt` in the source),
built from the Stage-A summary text. -/
def sentiment_prompt (summary : String) : String :=
  "Analyze the sentiment of this text: \"" ++ summary ++ "\"\n\n" ++
    "Provide:\n- Overall sentiment (positive/negative/neutral)\n" ++
    "- Confidence (0-100%)\n- Key emotional tone\n\n" ++
    "Be concise (2-3 sentences)."

/-- Step 1 of `summarize_article`: try the primary provider with the
summarization prompt; on exception, try the secondary provider with the
identical prompt.  A failure of the secondary call propagates. -/
def stageA_summary (p : LLMProviders) (a : Article) : Except String String :=
  match p.ask_openai (summary_prompt a) with
  | .ok summary => .ok summary
  | .error _ => p.ask_cohere (summary_prompt a)

/-- Step 2 of `summarize_article`: ask the sentiment provider about the
Stage-A summary; on exception, degrade to the fixed placeholder string. -/
def stageB_sentiment (p : LLMProviders) (summary : String) : String :=
  match p.ask_cohere (sentiment_prompt summary) with
  | .ok sentiment => sentiment
  | .error _ => "Unable to analyze sentiment"

/-- `NewsSummarizer.summarize_article`: Stage A (with fallback), then —
only on Stage-A success — Stage B, then the result dictionary assembled
from the original article fields and the two stage outputs.  The input
article is read, never written (the embedding is a pure function of it). -/
def summarize_article (p : LLMProviders) (a : Article) :
    Except String SummaryResult :=
  match stageA_summary p a with
  | .error e => .error e
  | .ok summary =>
      .ok { title := a.title, source := a.source, url := a.url,
            summary := summary,
            sentiment := stageB_sentiment p summary,
            published_at := a.published_at }

/-- `NewsSummarizer.process_articles`: the sequential loop that appends
each successful result and swallows each per-article exception. -/
def process_articles (p : LLMProviders) : List Article → List SummaryResult
  | [] => []
  | a :: rest =>
      match summarize_article p a with
      | .ok r => r :: process_articles p rest
      | .error _ => process_articles p rest

/-- `AsyncNewsSummarizer.process_articles_async`: one task per article, a
semaphore of size `max_concurrent` bounding how many run at once,
`asyncio.gather` with `return_exceptions=True` collecting one outcome per
task in task creation order, and a final comprehension dropping the
exceptions.  Each task runs `summarize_article` (in a worker thread), whose
embedded outcome depends only on the providers and the article, so the
semaphore affects scheduling but not the collected outcomes; it is kept as
an argument because `max_concurrent = 0` would deadlock the real code. -/
def process_articles_async (p : LLMProviders) (articles : List Article)
    (max_concurrent : Nat) : List SummaryResult :=
  let _ := max_concurrent
  let results := articles.map (fun a => summarize_article p a)
  results.filterMap Except.toOption

/-! ### Cost tracker, token estimator and rate limiter

These live in `my_llm_providers`, a module of the repository that is not
under `src/` (only its tests and callers are); they are modelled from the
specification. -/

/-- An immutable audit record of one billed LLM call (`PricedRequest`). -/
structure PricedRequest where
  provider : String
  model : String
  input_tokens : Nat
  output_tokens : Nat
  cost : ℚ
  deriving DecidableEq

/-- The cost tracker state: the append-only request log and the running
total cost. -/
structure CostTracker where
  requests : List PricedRequest
  total_cost : ℚ
  deriving DecidableEq

/-- A fresh tracker: empty log, zero total. -/
def CostTracker.init : CostTracker := ⟨[], 0⟩

/-- Sum of the costs recorded in a request log. -/
def log_cost_sum (rs : List PricedRequest) : ℚ :=
  (rs.map PricedRequest.cost).sum

/-- Modelled from the spec: the per-provider/per-model price table of
`my_llm_providers` (cost per 1K input tokens, cost per 1K output tokens);
an unknown combination yields `none` (a Configuration error).  The entries
cover the models named in `src/config.py` and `src/test_summarizer.py`;
the concrete rates are representative, no claim depends on their values. -/
def price_table (provider model : String) : Option (ℚ × ℚ) :=
  if provider = "openai" ∧ model = "gpt-4o-mini" then
    some (15 / 100000, 6 / 10000)
  else if provider = "cohere" ∧ model = "command-a-03-2025" then
    some (25 / 10000, 1 / 100)
  else if provider = "cohere" ∧ model = "command-xlarge-2026-01" then
    some (25 / 10000, 1 / 100)
  else none

/-- Modelled from the spec: `CostTracker.track_request` of
`my_llm_providers`.  Looks up the price table, computes
`cost = input_tokens/1000 * in_rate + output_tokens/1000 * out_rate`,
appends exactly one `PricedRequest`, adds the cost to the running total
and returns the cost; an unknown provider/model combination fails with a
Configuration error instead of a silent zero-cost fallback. -/
def track_request (t : CostTracker) (provider model : String)
    (input_tokens output_tokens : Nat) : Except String (ℚ × CostTracker) :=
  match price_table provider model with
  | none =>
      .error ("Configuration error: unknown pricing for " ++ provider ++
        "/" ++ model)
  | some rates =>
      let cost := (input_tokens : ℚ) / 1000 * rates.1 +
        (output_tokens : ℚ) / 1000 * rates.2
      .ok (cost,
        { requests := t.requests ++
            [{ provider := provider, model := model,
               input_tokens := input_tokens, output_tokens := output_tokens,
               cost := cost }],
          total_cost := t.total_cost + cost })

/-- Modelled from the spec: `CostTracker.check_budget` of
`my_llm_providers`.  Fails with a Budget-Exceeded error exactly when the
running total strictly exceeds the ceiling, otherwise a no-op; the tracker
is never modified (the operation returns no new state, per the test which
finds the string "budget" in the raised message). -/
def check_budget (t : CostTracker) (ceiling : ℚ) : Except String Unit :=
  if ceiling < t.total_cost then .error "Daily budget exceeded" else .ok ()

/-- Modelled from the spec: the token estimator `count_tokens` of
`my_llm_providers` (the real one wraps a tokenizer library, absent from
`src/`).  Approximated as the ceiling of length/4: a pure deterministic
function that is 0 exactly on the empty string, is monotone under
appending, and on the test input "Hello, how are you?" gives a value
strictly between 0 and the character length, as the unit test requires. -/
def count_tokens (text : String) : Nat :=
  (text.length + 3) / 4

/-- Modelled from the spec: the per-provider rate-limiter state — the
timestamp of each provider's last call (`none` before its first call).
Timestamps are rationals, in seconds. -/
structure RateLimiterState where
  last_call : String → Option ℚ

/-- A fresh limiter: no provider has been called. -/
def RateLimiterState.init : RateLimiterState := ⟨fun _ => none⟩

/-- Modelled from the spec: minimum inter-call spacing, `60 / rpm`
seconds. -/
def min_interval (rpm : ℚ) : ℚ := 60 / rpm

/-- Modelled from the spec: the mutex-protected acquire step the gateway
runs before each call — read the provider's last-call time, wait out the
remainder of the minimum spacing if needed, record the new call time.
Returns the time the call actually starts together with the updated
state; the mutex of the spec is what makes concurrent acquires to one
provider go through this state one after the other, which is how the
model applies it. -/
def rl_acquire (s : RateLimiterState) (provider : String)
    (interval now : ℚ) : ℚ × RateLimiterState :=
  let start :=
    match s.last_call provider with
    | none => now
    | some last => max now (last + interval)
  (start, ⟨fun q => if q = provider then some start else s.last_call q⟩)

/-! ### Helper lemmas (shared) -/

/-- The sequential loop keeps exactly the successful results, in input
order. -/
theorem process_articles_eq_filterMap (p : LLMProviders)
    (articles : List Article) :
    process_articles p articles =
      articles.filterMap (fun a => (summarize_article p a).toOption) := by
  induction articles with
  | nil => rfl
  | cons a rest ih =>
      cases h : summarize_article p a <;>
        simp [process_articles, h, Except.toOption, ih]

/-- The async batch keeps exactly the successful results, in task-creation
(input) order, for any semaphore size. -/
theorem process_articles_async_eq_filterMap (p : LLMProviders)
    (articles : List Article) (max_concurrent : Nat) :
    process_articles_async p articles max_concurrent =
      articles.filterMap (fun a => (summarize_article p a).toOption) := by
  simp [process_articles_async, List.filterMap_map]
  rfl

/-! ### Claim theorems -/

/-- C1: if the Stage-A request to the primary provider fails and the
secondary request — with the identical summarization prompt — succeeds,
`summarize_article` returns the secondary text as the summary and still
runs Stage B on it; if both Stage-A attempts fail, the article fails the
pipeline with the error propagated to the caller. -/
theorem stageA_fallback_and_propagation (p : LLMProviders) (a : Article) :
    (∀ e s, p.ask_openai (summary_prompt a) = .error e →
      p.ask_cohere (summary_prompt a) = .ok s →
      summarize_article p a =
        .ok { title := a.title, source := a.source, url := a.url,
              summary := s, sentiment := stageB_sentiment p s,
              published_at := a.published_at }) ∧
    (∀ e e2, p.ask_openai (summary_prompt a) = .error e →
      p.ask_cohere (summary_prompt a) = .error e2 →
      summarize_article p a = .error e2) := by
  constructor
  · intro e s h1 h2
    simp [summarize_article, stageA_summary, h1, h2]
  · intro e e2 h1 h2
    simp [summarize_article, stageA_summary, h1, h2]

/-- A provider pair whose primary always fails and whose secondary always
answers, for exercising the Stage-A fallback. -/
def pFallback : LLMProviders :=
  { ask_openai := fun _ => .error "timeout",
    ask_cohere := fun _ => .ok "secondary summary" }

/-- A fixed concrete article. -/
def aX : Article :=
  ⟨"T", "D", "Body", "http://u", "S", "2026-01-19"⟩

/-- Witness for C1 at a concrete provider pair and article. -/
theorem stageA_fallback_and_propagation_witness :
    summarize_article pFallback aX =
      .ok { title := aX.title, source := aX.source, url := aX.url,
            summary := "secondary summary",
            sentiment := stageB_sentiment pFallback "secondary summary",
            published_at := aX.published_at } :=
  (stageA_fallback_and_propagation pFallback aX).1 "timeout"
    "secondary summary" rfl rfl

/-- C2: if Stage A succeeded with summary `s` and the Stage-B sentiment
request fails, `summarize_article` sets the sentiment to the fixed
placeholder string and still returns a complete result — the article is
not dropped. -/
theorem stageB_degrades_to_placeholder (p : LLMProviders) (a : Article)
    (s : String) (hA : stageA_summary p a = .ok s)
    (hB : ∃ e, p.ask_cohere (sentiment_prompt s) = .error e) :
    summarize_article p a =
      .ok { title := a.title, source := a.source, url := a.url,
            summary := s, sentiment := "Unable to analyze sentiment",
            published_at := a.published_at } := by
  obtain ⟨e, hB⟩ := hB
  simp [summarize_article, hA, stageB_sentiment, hB]

/-- A provider pair whose primary answers and whose secondary (the
sentiment provider) always fails. -/
def pNoSentiment : LLMProviders :=
  { ask_openai := fun _ => .ok "primary summary",
    ask_cohere := fun _ => .error "down" }

/-- Witness for C2 at a concrete provider pair and article. -/
theorem stageB_degrades_to_placeholder_witness :
    summarize_article pNoSentiment aX =
      .ok { title := aX.title, source := aX.source, url := aX.url,
            summary := "primary summary",
            sentiment := "Unable to analyze sentiment",
            published_at := aX.published_at } :=
  stageB_degrades_to_placeholder pNoSentiment aX "primary summary" rfl
    ⟨"down", rfl⟩

/-- C3: sequential `process_articles` returns exactly the successful
results, in input order, each failure dropped without aborting the batch
(an all-failure run gives `[]` since `filterMap` of errors is empty); in
particular with three articles of which only the second fails, the output
is the two successes in order. -/
theorem sequential_keeps_successes_in_order (p : LLMProviders) :
    (∀ articles : List Article,
      process_articles p articles =
        articles.filterMap (fun a => (summarize_article p a).toOption)) ∧
    (∀ a1 a2 a3 r1 r3 e, summarize_article p a1 = .ok r1 →
      summarize_article p a2 = .error e →
      summarize_article p a3 = .ok r3 →
      process_articles p [a1, a2, a3] = [r1, r3]) := by
  refine ⟨process_articles_eq_filterMap p, ?_⟩
  intro a1 a2 a3 r1 r3 e h1 h2 h3
  simp [process_articles_eq_filterMap, h1, h2, h3, Except.toOption]

/-- Three concrete articles, distinguished by title. -/
def aOne : Article := ⟨"T1", "D", "B", "u1", "S", "d"⟩

/-- Second concrete article — the one the providers below reject. -/
def aTwo : Article := ⟨"T2", "D", "B", "u2", "S", "d"⟩

/-- Third concrete article. -/
def aThree : Article := ⟨"T3", "D", "B", "u3", "S", "d"⟩

/-- Providers that fail (on both backends) exactly on the summarization
prompt of `aTwo` and answer everything else. -/
def pRejectTwo : LLMProviders :=
  { ask_openai := fun prompt =>
      if prompt = summary_prompt aTwo then .error "quota" else .ok "ok summary",
    ask_cohere := fun prompt =>
      if prompt = summary_prompt aTwo then .error "quota2" else .ok "fine" }

/-- The result `pRejectTwo` produces for `aOne`. -/
def rOne : SummaryResult := ⟨"T1", "S", "u1", "ok summary", "fine", "d"⟩

/-- The result `pRejectTwo` produces for `aThree`. -/
def rThree : SummaryResult := ⟨"T3", "S", "u3", "ok summary", "fine", "d"⟩

/-- Witness for C3: three articles, the second fails, two results in
order. -/
theorem sequential_keeps_successes_in_order_witness :
    process_articles pRejectTwo [aOne, aTwo, aThree] = [rOne, rThree] :=
  (sequential_keeps_successes_in_order pRejectTwo).2 aOne aTwo aThree
    rOne rThree "quota2" rfl rfl rfl

/-- C7: every successful result carries the original article's title,
source, url and published timestamp unchanged, its sentiment is the
Stage-B output for its summary, and its summary is the text one of the two
Stage-A providers returned; the input article is never mutated (the
embedded pipeline is a pure function of it). -/
theorem result_preserves_article_metadata (p : LLMProviders) (a : Article)
    (r : SummaryResult) (h : summarize_article p a = .ok r) :
    r.title = a.title ∧ r.source = a.source ∧ r.url = a.url ∧
    r.published_at = a.published_at ∧
    r.sentiment = stageB_sentiment p r.summary ∧
    (p.ask_openai (summary_prompt a) = .ok r.summary ∨
      p.ask_cohere (summary_prompt a) = .ok r.summary) := by
  unfold summarize_article at h
  cases hA : stageA_summary p a with
  | error e => rw [hA] at h; cases h
  | ok s =>
      rw [hA] at h
      cases h
      unfold stageA_summary at hA
      cases hO : p.ask_openai (summary_prompt a) with
      | ok s0 =>
          rw [hO] at hA
          have hs : s0 = s := by simpa using hA
          subst hs
          exact ⟨rfl, rfl, rfl, rfl, rfl, Or.inl rfl⟩
      | error e0 =>
          rw [hO] at hA
          exact ⟨rfl, rfl, rfl, rfl, rfl, Or.inr hA⟩

/-- Witness for C7 at a concrete provider pair and article. -/
theorem result_preserves_article_metadata_witness :
    ("T1" : String) = aOne.title ∧ ("S" : String) = aOne.source ∧
    ("u1" : String) = aOne.url ∧ ("d" : String) = aOne.published_at ∧
    ("fine" : String) = stageB_sentiment pRejectTwo "ok summary" ∧
    (pRejectTwo.ask_openai (summary_prompt aOne) = .ok "ok summary" ∨
      pRejectTwo.ask_cohere (summary_prompt aOne) = .ok "ok summary") :=
  result_preserves_article_metadata pRejectTwo aOne rOne rfl

/-- C8: the bounded-concurrency mode with `max_concurrent = 1` returns the
very same result list as sequential mode (so in particular the same set of
successes, and the same articles fail). -/
theorem async_one_matches_sequential (p : LLMProviders)
    (articles : List Article) :
    process_articles_async p articles 1 = process_articles p articles := by
  rw [process_articles_async_eq_filterMap, process_articles_eq_filterMap]

/-- C10: for every semaphore size of at least one, the async batch returns
the successful results in the relative order of their input articles —
results are collected in task-submission order and failures filtered in
place — hence it coincides with the sequential loop; the model is a total
function of the article list, every per-article outcome being accounted
for before it returns. -/
theorem async_keeps_input_order (p : LLMProviders) (articles : List Article)
    (max_concurrent : Nat) (hpos : 1 ≤ max_concurrent) :
    process_articles_async p articles max_concurrent =
      articles.filterMap (fun a => (summarize_article p a).toOption) ∧
    process_articles_async p articles max_concurrent =
      process_articles p articles := by
  refine ⟨process_articles_async_eq_filterMap p articles max_concurrent, ?_⟩
  rw [process_articles_async_eq_filterMap, process_articles_eq_filterMap]

/-- Witness for C10 at a concrete batch and `max_concurrent = 2`. -/
theorem async_keeps_input_order_witness :
    process_articles_async pRejectTwo [aOne, aTwo, aThree] 2 =
      process_articles pRejectTwo [aOne, aTwo, aThree] :=
  (async_keeps_input_order pRejectTwo [aOne, aTwo, aThree] 2 (by decide)).2

/-- C4: each `track_request` call on a priced provider/model combination
returns `ok` with cost `input_tokens/1000 * in_rate + output_tokens/1000 *
out_rate`, appends exactly one log entry carrying that cost, and adds
exactly that cost to the running total — so a state satisfying the
invariant `total = sum of logged costs` steps to a state satisfying it. -/
theorem track_request_accounting (t : CostTracker) (provider model : String)
    (input_tokens output_tokens : Nat) (in_rate out_rate : ℚ)
    (hp : price_table provider model = some (in_rate, out_rate))
    (hinv : t.total_cost = log_cost_sum t.requests) :
    track_request t provider model input_tokens output_tokens =
      .ok ((input_tokens : ℚ) / 1000 * in_rate +
          (output_tokens : ℚ) / 1000 * out_rate,
        { requests := t.requests ++
            [{ provider := provider, model := model,
               input_tokens := input_tokens, output_tokens := output_tokens,
               cost := (input_tokens : ℚ) / 1000 * in_rate +
                 (output_tokens : ℚ) / 1000 * out_rate }],
          total_cost := t.total_cost +
            ((input_tokens : ℚ) / 1000 * in_rate +
              (output_tokens : ℚ) / 1000 * out_rate) }) ∧
    t.total_cost +
        ((input_tokens : ℚ) / 1000 * in_rate +
          (output_tokens : ℚ) / 1000 * out_rate) =
      log_cost_sum (t.requests ++
        [{ provider := provider, model := model,
           input_tokens := input_tokens, output_tokens := output_tokens,
           cost := (input_tokens : ℚ) / 1000 * in_rate +
             (output_tokens : ℚ) / 1000 * out_rate }]) := by
  constructor
  · simp [track_request, hp]
  · simp [log_cost_sum, hinv]

/-- Witness for C4: the unit test's call, on a fresh tracker. -/
theorem track_request_accounting_witness :
    track_request CostTracker.init "openai" "gpt-4o-mini" 100 500 =
      .ok ((63 / 200000 : ℚ),
        { requests := [{ provider := "openai", model := "gpt-4o-mini",
                         input_tokens := 100, output_tokens := 500,
                         cost := (63 / 200000 : ℚ) }],
          total_cost := (63 / 200000 : ℚ) }) := by
  have h := (track_request_accounting CostTracker.init "openai"
    "gpt-4o-mini" 100 500 (15 / 100000) (6 / 10000)
    (by simp [price_table]) rfl).1
  rw [h]
  norm_num [CostTracker.init]

/-- C5: `check_budget` fails with the Budget-Exceeded error exactly when
the running total strictly exceeds the ceiling, and is an `ok ()` no-op
when the total equals or is below the ceiling; it takes the tracker only
as input and returns no state, so the tracker is unchanged. -/
theorem check_budget_exceeds_iff (t : CostTracker) (ceiling : ℚ) :
    (check_budget t ceiling = .ok () ↔ t.total_cost ≤ ceiling) ∧
    ((∃ e, check_budget t ceiling = .error e) ↔ ceiling < t.total_cost) := by
  unfold check_budget
  by_cases h : ceiling < t.total_cost <;> simp [h]
  · exact not_lt.mp h

/-- C6: the token estimator is a pure function to a non-negative integer,
zero on the empty string, zero only there, and non-decreasing under
appending characters on the right. -/
theorem count_tokens_contract :
    count_tokens "" = 0 ∧
    (∀ t : String, count_tokens t = 0 → t = "") ∧
    (∀ t s : String, count_tokens t ≤ count_tokens (t ++ s)) := by
  refine ⟨rfl, ?_, ?_⟩
  · intro t h
    unfold count_tokens at h
    have h4 : (0 : Nat) < 4 := by norm_num
    have hlt : t.length + 3 < 4 := (Nat.div_eq_zero_iff h4).mp h
    have hl : t.length = 0 := by omega
    cases t with
    | mk data =>
        simp only [String.length, List.length_eq_zero] at hl
        simp [hl]
  · intro t s
    unfold count_tokens
    have hle : t.length ≤ (t ++ s).length := by
      simp [String.length_append]
    exact Nat.div_le_div_right (by omega)

/-- Witness for C6: the only string of estimate zero is the empty one, and
appending grows the estimate. -/
theorem count_tokens_contract_witness :
    ("" : String) = "" ∧ count_tokens "ab" ≤ count_tokens ("ab" ++ "cdef") :=
  ⟨count_tokens_contract.2.1 "" rfl, count_tokens_contract.2.2 "ab" "cdef"⟩

/-- C9: a second acquire for the same provider never starts earlier than
`60/rpm` seconds after the start of the previous one — for any prior state,
so in particular with arbitrary other-provider acquires in between, and
under concurrency, where the spec's mutex makes competing acquires pass
through the state one after the other; while an acquire for a different,
not-yet-called provider starts at its request time, with no cross-provider
delay. -/
theorem rate_limiter_spacing :
    (∀ (s : RateLimiterState) (provider : String) (rpm now1 now2 : ℚ),
      (rl_acquire s provider (min_interval rpm) now1).1 + min_interval rpm ≤
        (rl_acquire (rl_acquire s provider (min_interval rpm) now1).2
          provider (min_interval rpm) now2).1) ∧
    (∀ (s : RateLimiterState) (p q : String) (interval now1 now2 : ℚ),
      p ≠ q → s.last_call q = none →
      (rl_acquire (rl_acquire s p interval now1).2 q interval now2).1 =
        now2) := by
  constructor
  · intro s provider rpm now1 now2
    cases h : s.last_call provider <;>
      simp [rl_acquire, h, le_max_right]
  · intro s p q interval now1 now2 hpq hq
    have hne : q ≠ p := Ne.symm hpq
    cases h : s.last_call p <;>
      simp [rl_acquire, h, hne, hq]

/-- Witness for C9: after one call to the first provider, a first call to
the second provider starts immediately at its request time. -/
theorem rate_limiter_spacing_witness :
    (rl_acquire (rl_acquire RateLimiterState.init "openai"
        (min_interval 500) 0).2 "cohere" (min_interval 500) (1 / 2)).1 =
      1 / 2 :=
  rate_limiter_spacing.2 RateLimiterState.init "openai" "cohere"
    (min_interval 500) 0 (1 / 2) (by decide) rfl

end Week2d4
